import Mathlib

/-!
Verification development for the calculation/user web service.

The Python source is shallowly embedded:
  * `app/models/calculation.py` — the `Calculation` registry/factory and the
    five arithmetic variants (`Addition`, `Subtraction`, `Multiplication`,
    `Division`, `Modulus`).
  * `app/models/user.py` — token mint/verify, `register`, `authenticate`.
Operands (Python floats used at exact values in the spec's examples) are
modelled as rationals; Python's `%` on numbers is `x - y * floor(x / y)`.
Database sessions are modelled as explicit lists of records, and
exception-raising Python functions return `Except String`.
-/

/-- Python's `str.lower` (ASCII range), as used for registry keys and lookups. -/
def pyLower (s : String) : String := String.mk (s.data.map Char.toLower)

theorem charOfNat_toNat_valid (n : Nat) (h : n.isValidChar) :
    (Char.ofNat n).toNat = n := by
  simp [Char.ofNat, h, Char.ofNatAux, Char.toNat, UInt32.toNat, BitVec.toNat_ofNatLt]

theorem charToLower_idem (c : Char) : c.toLower.toLower = c.toLower := by
  unfold Char.toLower
  by_cases h : c.toNat ≥ 65 ∧ c.toNat ≤ 90
  · rw [if_pos h]
    have hv : Nat.isValidChar (c.toNat + 32) := Or.inl (by omega)
    rw [if_neg]
    rw [charOfNat_toNat_valid _ hv]
    omega
  · rw [if_neg h, if_neg h]

theorem pyLower_idem (s : String) : pyLower (pyLower s) = pyLower s := by
  simp [pyLower, List.map_map, Function.comp_def, charToLower_idem]

/-- Python's `%` on numbers: `x % y = x - y * floor(x / y)` (sign of divisor). -/
def pymod (x y : ℚ) : ℚ := x - y * (⌊x / y⌋ : ℤ)

/-- `functools.reduce` with no initializer: the first element seeds a strict
left-to-right fold; an empty iterable raises `TypeError`. -/
def pyReduce (f : ℚ → ℚ → ℚ) : List ℚ → Except String ℚ
  | [] => .error "TypeError: reduce() of empty iterable with no initial value"
  | x :: xs => .ok (xs.foldl f x)

namespace Addition

/-- `Addition.get_result`: `reduce(lambda x, y: x + y, self.inputs)`. -/
def get_result (inputs : List ℚ) : Except String ℚ :=
  pyReduce (fun x y => x + y) inputs

end Addition

namespace Subtraction

/-- `Subtraction.get_result`: `reduce(lambda x, y: x - y, self.inputs)`. -/
def get_result (inputs : List ℚ) : Except String ℚ :=
  pyReduce (fun x y => x - y) inputs

end Subtraction

namespace Multiplication

/-- `Multiplication.get_result`: `reduce(lambda x, y: x * y, self.inputs)`. -/
def get_result (inputs : List ℚ) : Except String ℚ :=
  pyReduce (fun x y => x * y) inputs

end Multiplication

namespace Division

/-- `Division.get_result`: raises on a zero among `inputs[1:]`, else
`reduce(lambda x, y: x / y, self.inputs)`. -/
def get_result (inputs : List ℚ) : Except String ℚ :=
  if (0 : ℚ) ∈ inputs.tail then .error "Zero divisor input invalid for Division"
  else pyReduce (fun x y => x / y) inputs

end Division

namespace Modulus

/-- `Modulus.get_result`: raises on a zero among `inputs[1:]`, else
`reduce(lambda x, y: x % y, self.inputs)`. -/
def get_result (inputs : List ℚ) : Except String ℚ :=
  if (0 : ℚ) ∈ inputs.tail then .error "Zero divisor input invalid for Modulo Division"
  else pyReduce pymod inputs

end Modulus

/-- A Python class value as `Calculation.register` sees one: its `__name__`
and whether `issubclass(cls, Calculation)` holds. -/
structure PyClass where
  name : String
  inheritsCalculation : Bool
deriving DecidableEq

/-- An unpersisted `Calculation` instance as built by the factory. -/
structure CalculationInst where
  calc_class : PyClass
  user_id : String
  inputs : List ℚ
deriving DecidableEq

namespace Calculation

/-- `Calculation.register`: rejects classes outside the `Calculation` family
with `TypeError`, otherwise stores the class under its lowercased `__name__`
(dict update: the new binding shadows any previous one) and returns the class. -/
def register (types : List (String × PyClass)) (calc_cls : PyClass) :
    Except String (List (String × PyClass) × PyClass) :=
  if calc_cls.inheritsCalculation = false then
    .error "TypeError: Registered class must inherit from Calculation"
  else
    .ok ((pyLower calc_cls.name, calc_cls) :: types, calc_cls)

def AdditionCls : PyClass := ⟨"Addition", true⟩

def SubtractionCls : PyClass := ⟨"Subtraction", true⟩

def MultiplicationCls : PyClass := ⟨"Multiplication", true⟩

def DivisionCls : PyClass := ⟨"Division", true⟩

def ModulusCls : PyClass := ⟨"Modulus", true⟩

/-- One `@Calculation.register` decoration applied during module import. -/
def registerStep (acc : Except String (List (String × PyClass))) (c : PyClass) :
    Except String (List (String × PyClass)) :=
  acc.bind fun d => (register d c).map Prod.fst

/-- `Calculation._types` after the five decorators run, in source order. -/
def typesAfterImport : Except String (List (String × PyClass)) :=
  [AdditionCls, SubtractionCls, MultiplicationCls, DivisionCls, ModulusCls].foldl
    registerStep (.ok [])

/-- The populated registry `Calculation._types`. -/
def typesDict : List (String × PyClass) :=
  (typesAfterImport.toOption).getD []

theorem typesAfterImport_ok : typesAfterImport = .ok typesDict := rfl

/-- `Calculation.create`: looks the tag up lowercased; unknown tag and
operand count below 2 each raise `ValueError`. -/
def create (calc_type : String) (user_id : String) (inputs : List ℚ) :
    Except String CalculationInst :=
  match typesDict.lookup (pyLower calc_type) with
  | none => .error s!"Unsupported calculation type: {calc_type}"
  | some calc_class =>
    if inputs = [] ∨ inputs.length < 2 then
      .error s!"{calc_type} requires at least 2 operands"
    else
      .ok ⟨calc_class, user_id, inputs⟩

end Calculation

theorem typesDict_eq :
    Calculation.typesDict =
      [("modulus", Calculation.ModulusCls), ("division", Calculation.DivisionCls),
       ("multiplication", Calculation.MultiplicationCls),
       ("subtraction", Calculation.SubtractionCls),
       ("addition", Calculation.AdditionCls)] := rfl

/-- C1: on every operand list of length ≥ 2, each variant's `get_result` is the
strict left-to-right fold of its operator seeded by the first operand
(division/modulus compute that fold whenever their zero-divisor pre-check
passes), and the spec's concrete examples hold. -/
theorem computeResult_left_fold (x y : ℚ) (xs : List ℚ) :
    Addition.get_result (x :: y :: xs) = .ok ((y :: xs).foldl (fun a b => a + b) x) ∧
    Subtraction.get_result (x :: y :: xs) = .ok ((y :: xs).foldl (fun a b => a - b) x) ∧
    Multiplication.get_result (x :: y :: xs) = .ok ((y :: xs).foldl (fun a b => a * b) x) ∧
    ((0 : ℚ) ∉ y :: xs →
      Division.get_result (x :: y :: xs) = .ok ((y :: xs).foldl (fun a b => a / b) x)) ∧
    ((0 : ℚ) ∉ y :: xs →
      Modulus.get_result (x :: y :: xs) = .ok ((y :: xs).foldl pymod x)) ∧
    Addition.get_result [1, 2] = .ok 3 ∧
    Subtraction.get_result [3, 2] = .ok 1 ∧
    Multiplication.get_result [2, 3] = .ok 6 ∧
    Division.get_result [6, 3] = .ok 2 ∧
    Modulus.get_result [6, 3] = .ok 0 := by
  refine ⟨rfl, rfl, rfl, fun h => ?_, fun h => ?_,
    by norm_num [Addition.get_result, pyReduce],
    by norm_num [Subtraction.get_result, pyReduce],
    by norm_num [Multiplication.get_result, pyReduce],
    by norm_num [Division.get_result, pyReduce],
    by norm_num [Modulus.get_result, pyReduce, pymod]⟩
  · simp only [Division.get_result, List.tail_cons, if_neg h, pyReduce]
  · simp only [Modulus.get_result, List.tail_cons, if_neg h, pyReduce]

theorem computeResult_left_fold_witness :
    Division.get_result [(12 : ℚ), 3, 2] = .ok (([3, 2] : List ℚ).foldl (fun a b => a / b) 12) ∧
    Modulus.get_result [(12 : ℚ), 3, 2] = .ok (([3, 2] : List ℚ).foldl pymod 12) ∧
    Addition.get_result [(12 : ℚ), 3, 2] = .ok (([3, 2] : List ℚ).foldl (fun a b => a + b) 12) :=
  ⟨(computeResult_left_fold 12 3 [2]).2.2.2.1 (by decide),
   (computeResult_left_fold 12 3 [2]).2.2.2.2.1 (by decide),
   (computeResult_left_fold 12 3 [2]).1⟩

/-- C2: for division/modulus operand lists of length ≥ 2, `get_result` raises
exactly when a zero occurs after the first operand, with the variant's fixed
message; otherwise it succeeds (a zero first operand alone never fails). -/
theorem zero_divisor_error_iff (x y : ℚ) (xs : List ℚ) :
    (Division.get_result (x :: y :: xs) = .error "Zero divisor input invalid for Division" ↔
      (0 : ℚ) ∈ y :: xs) ∧
    (Modulus.get_result (x :: y :: xs) = .error "Zero divisor input invalid for Modulo Division" ↔
      (0 : ℚ) ∈ y :: xs) ∧
    (∀ e, Division.get_result (x :: y :: xs) = .error e →
      e = "Zero divisor input invalid for Division") ∧
    (∀ e, Modulus.get_result (x :: y :: xs) = .error e →
      e = "Zero divisor input invalid for Modulo Division") ∧
    ((0 : ℚ) ∉ y :: xs →
      (Division.get_result (x :: y :: xs)).isOk = true ∧
      (Modulus.get_result (x :: y :: xs)).isOk = true) := by
  by_cases h : (0 : ℚ) ∈ y :: xs
  · refine ⟨⟨fun _ => h, fun _ => ?_⟩, ⟨fun _ => h, fun _ => ?_⟩, fun e he => ?_,
      fun e he => ?_, fun hn => absurd h hn⟩
    · simp only [Division.get_result, List.tail_cons, if_pos h]
    · simp only [Modulus.get_result, List.tail_cons, if_pos h]
    · simp only [Division.get_result, List.tail_cons, if_pos h] at he
      exact (Except.error.injEq _ _ ▸ he).symm
    · simp only [Modulus.get_result, List.tail_cons, if_pos h] at he
      exact (Except.error.injEq _ _ ▸ he).symm
  · have hd : Division.get_result (x :: y :: xs) = .ok ((y :: xs).foldl (fun a b => a / b) x) := by
      simp only [Division.get_result, List.tail_cons, if_neg h, pyReduce]
    have hm : Modulus.get_result (x :: y :: xs) = .ok ((y :: xs).foldl pymod x) := by
      simp only [Modulus.get_result, List.tail_cons, if_neg h, pyReduce]
    refine ⟨⟨fun he => ?_, fun hz => absurd hz h⟩, ⟨fun he => ?_, fun hz => absurd hz h⟩,
      fun e he => ?_, fun e he => ?_, fun _ => ⟨by rw [hd]; rfl, by rw [hm]; rfl⟩⟩
    · rw [hd] at he
      exact absurd he (by simp)
    · rw [hm] at he
      exact absurd he (by simp)
    · rw [hd] at he
      exact absurd he (by simp)
    · rw [hm] at he
      exact absurd he (by simp)

theorem zero_divisor_error_iff_witness :
    (Division.get_result [(12 : ℚ), 2, 0, 2] = .error "Zero divisor input invalid for Division" ↔
      (0 : ℚ) ∈ [(2 : ℚ), 0, 2]) ∧
    ((0 : ℚ) ∈ [(2 : ℚ), 0, 2]) ∧
    ((0 : ℚ) ∉ [(3 : ℚ)]) ∧
    ((Division.get_result [(0 : ℚ), 3]).isOk = true ∧
      (Modulus.get_result [(0 : ℚ), 3]).isOk = true) :=
  ⟨(zero_divisor_error_iff 12 2 [0, 2]).1, by decide, by decide,
   (zero_divisor_error_iff 0 3 []).2.2.2.2 (by decide)⟩

/-- C7: `Calculation.create` fails with `ValueError` message
`Unsupported calculation type: {tag}` whenever the lowercased tag is not a
registry key, for every owner id and operand list. -/
theorem create_unknown_tag (tag uid : String) (inputs : List ℚ)
    (h : Calculation.typesDict.lookup (pyLower tag) = none) :
    Calculation.create tag uid inputs = .error s!"Unsupported calculation type: {tag}" := by
  simp only [Calculation.create, h]

theorem create_unknown_tag_witness :
    Calculation.typesDict.lookup (pyLower "power") = none ∧
    Calculation.create "power" "owner-1" [1, 2] =
      .error "Unsupported calculation type: power" :=
  ⟨by decide, create_unknown_tag "power" "owner-1" [1, 2] (by decide)⟩

theorem lookup_addition :
    Calculation.typesDict.lookup (pyLower "addition") = some Calculation.AdditionCls := by decide

theorem lookup_subtraction :
    Calculation.typesDict.lookup (pyLower "subtraction") = some Calculation.SubtractionCls := by
  decide

theorem lookup_multiplication :
    Calculation.typesDict.lookup (pyLower "multiplication") =
      some Calculation.MultiplicationCls := by decide

theorem lookup_division :
    Calculation.typesDict.lookup (pyLower "division") = some Calculation.DivisionCls := by decide

theorem lookup_modulus :
    Calculation.typesDict.lookup (pyLower "modulus") = some Calculation.ModulusCls := by decide

/-- C8: for each registered variant tag, `Calculation.create` with fewer than 2
operands (the empty list included) fails with
`{tag} requires at least 2 operands`. -/
theorem create_too_few_operands (tag uid : String) (inputs : List ℚ)
    (htag : tag ∈ ["addition", "subtraction", "multiplication", "division", "modulus"])
    (hlen : inputs.length < 2) :
    Calculation.create tag uid inputs = .error s!"{tag} requires at least 2 operands" := by
  have hor : inputs = [] ∨ inputs.length < 2 := Or.inr hlen
  fin_cases htag <;>
    simp only [Calculation.create, lookup_addition, lookup_subtraction, lookup_multiplication,
      lookup_division, lookup_modulus, if_pos hor]

theorem create_too_few_operands_witness :
    ("division" ∈ ["addition", "subtraction", "multiplication", "division", "modulus"] ∧
      ([(5 : ℚ)] : List ℚ).length < 2) ∧
    Calculation.create "division" "owner-1" [5] =
      .error "division requires at least 2 operands" :=
  ⟨⟨by decide, by decide⟩,
   create_too_few_operands "division" "owner-1" [5] (by decide) (by decide)⟩

/-- C9: `Calculation.register` raises `TypeError` on every class outside the
`Calculation` family, regardless of its name; on every conforming class it
returns the class unchanged and the registry maps the lowercased class name to
that class. -/
theorem register_type_check (d : List (String × PyClass)) (c : PyClass) :
    (c.inheritsCalculation = false →
      Calculation.register d c =
        .error "TypeError: Registered class must inherit from Calculation") ∧
    (c.inheritsCalculation = true →
      Calculation.register d c = .ok ((pyLower c.name, c) :: d, c) ∧
      ((pyLower c.name, c) :: d).lookup (pyLower c.name) = some c) := by
  constructor
  · intro h
    simp [Calculation.register, h]
  · intro h
    refine ⟨by simp [Calculation.register, h], ?_⟩
    simp [List.lookup]

theorem register_type_check_witness :
    (Calculation.register [] ⟨"Rogue", false⟩ =
      .error "TypeError: Registered class must inherit from Calculation") ∧
    (Calculation.register [] Calculation.AdditionCls =
      .ok ([(pyLower Calculation.AdditionCls.name, Calculation.AdditionCls)],
        Calculation.AdditionCls) ∧
      [(pyLower Calculation.AdditionCls.name, Calculation.AdditionCls)].lookup
        (pyLower Calculation.AdditionCls.name) = some Calculation.AdditionCls) :=
  ⟨(register_type_check [] ⟨"Rogue", false⟩).1 rfl,
   (register_type_check [] Calculation.AdditionCls).2 rfl⟩

/-- C10: tag lookup in `Calculation.create` is case-insensitive: for every tag,
owner and operand list, `create tag` succeeds exactly when
`create (lowercase tag)` does, and on success both build the same instance. -/
theorem create_case_insensitive (tag uid : String) (inputs : List ℚ) :
    ((Calculation.create tag uid inputs).isOk =
      (Calculation.create (pyLower tag) uid inputs).isOk) ∧
    (∀ c, Calculation.create tag uid inputs = .ok c ↔
      Calculation.create (pyLower tag) uid inputs = .ok c) := by
  have hl : pyLower (pyLower tag) = pyLower tag := pyLower_idem tag
  cases h : Calculation.typesDict.lookup (pyLower tag) with
  | none =>
    have e1 : Calculation.create tag uid inputs =
        .error s!"Unsupported calculation type: {tag}" := by
      simp only [Calculation.create, h]
    have e2 : Calculation.create (pyLower tag) uid inputs =
        .error s!"Unsupported calculation type: {pyLower tag}" := by
      simp only [Calculation.create, hl, h]
    rw [e1, e2]
    exact ⟨rfl, fun c => by constructor <;> intro hh <;> simp at hh⟩
  | some cls =>
    by_cases hi : inputs = [] ∨ inputs.length < 2
    · have e1 : Calculation.create tag uid inputs =
          .error s!"{tag} requires at least 2 operands" := by
        simp only [Calculation.create, h, if_pos hi]
      have e2 : Calculation.create (pyLower tag) uid inputs =
          .error s!"{pyLower tag} requires at least 2 operands" := by
        simp only [Calculation.create, hl, h, if_pos hi]
      rw [e1, e2]
      exact ⟨rfl, fun c => by constructor <;> intro hh <;> simp at hh⟩
    · have e1 : Calculation.create tag uid inputs = .ok ⟨cls, uid, inputs⟩ := by
        simp only [Calculation.create, h, if_neg hi]
      have e2 : Calculation.create (pyLower tag) uid inputs = .ok ⟨cls, uid, inputs⟩ := by
        simp only [Calculation.create, hl, h, if_neg hi]
      rw [e1, e2]
      exact ⟨rfl, fun c => Iff.rfl⟩

/-- `AppSettings` with its source defaults (no `.env` overrides). -/
structure AppSettings where
  JWT_SECRET : String
  JWT_REFRESH_SECRET : String
  JWT_ALGORITHM : String
  ACCESS_TOKEN_TTL : Int
  REFRESH_TOKEN_TTL : Int
deriving DecidableEq

/-- The `GlobalSettings()` singleton. Times are measured in minutes. -/
def settings : AppSettings :=
  ⟨"super-secret-key-for-jwt-min-32-chars", "super-secret-refresh-key-min-32-chars",
   "HS256", 30, 7 * 24 * 60⟩

/-- A decoded JWT claim set: the subject claim (a string when present — the
`python-jose` decoder rejects non-string `sub` claims with a `JWTError`) and
the expiry timestamp. -/
structure TokenPayload where
  sub : Option String
  exp : Int
deriving DecidableEq

/-- A signed token. Modelled from the spec: the `python-jose` collaborator is
abstracted as a perfect message authentication code, so a signature is
represented by the exact (secret, claims) pair it authenticates. -/
structure Jwt where
  payload : TokenPayload
  sig : String × TokenPayload
deriving DecidableEq

/-- Modelled from the spec: `jose.jwt.encode` — sign the claims with the secret. -/
def jwt_encode (payload : TokenPayload) (secret : String) : Jwt :=
  ⟨payload, (secret, payload)⟩

/-- Modelled from the spec: `jose.jwt.decode` — reject a signature not produced
by this secret over these claims, then reject an expired `exp`; both failures
are `JWTError`s. -/
def jwt_decode (t : Jwt) (secret : String) (now : Int) : Except String TokenPayload :=
  if t.sig ≠ (secret, t.payload) then .error "JWTError: signature verification failed"
  else if t.payload.exp < now then .error "JWTError: signature has expired"
  else .ok t.payload

/-- A `users` table row. -/
structure UserRec where
  id : String
  username : String
  email : String
  password : String
  first_name : String
  last_name : String
  is_active : Bool
  is_verified : Bool
  last_login : Option Int
deriving DecidableEq

/-- The sanitized `UserRecord` read schema: every stored field except the
password hash (timestamps are not modelled). -/
structure UserRecordView where
  id : String
  username : String
  email : String
  first_name : String
  last_name : String
  is_active : Bool
  is_verified : Bool
deriving DecidableEq

/-- The transient `AuthToken` schema returned by `authenticate`. -/
structure AuthToken where
  access_token : Jwt
  refresh_token : Jwt
  token_type : String
  expires_at : Int
  user : UserRecordView
deriving DecidableEq

namespace User

/-- `User.hash_password`. Modelled from the spec: the bcrypt collaborator is a
one-way salted hash; abstracted as scheme-prefix tagging, so the digest is
never the plaintext and distinct passwords have distinct digests. -/
def hash_password (password : String) : String :=
  "$2b$12$" ++ password

/-- `User.verify_password`: true iff the plaintext matches the stored hash. -/
def verify_password (u : UserRec) (plain_password : String) : Bool :=
  u.password == hash_password plain_password

/-- `User.create_access_token`: expiry is `now` plus the given delta or the
configured access TTL; claims are signed with `JWT_SECRET`. -/
def create_access_token (data : Option String) (expires_delta : Option Int)
    (now : Int) : Jwt :=
  jwt_encode ⟨data, now + expires_delta.getD settings.ACCESS_TOKEN_TTL⟩ settings.JWT_SECRET

/-- `User.create_refresh_token`: same shape, signed with `JWT_REFRESH_SECRET`
and defaulting to the refresh TTL. -/
def create_refresh_token (data : Option String) (expires_delta : Option Int)
    (now : Int) : Jwt :=
  jwt_encode ⟨data, now + expires_delta.getD settings.REFRESH_TOKEN_TTL⟩
    settings.JWT_REFRESH_SECRET

/-- Modelled from the spec: `uuid.UUID(...)` accepts the canonical
8-4-4-4-12 lowercase-hex text of a UUID and raises `ValueError` otherwise. -/
def isLowerHexDigit (c : Char) : Bool :=
  c.isDigit || ('a' ≤ c && c ≤ 'f')

/-- Canonical `str(uuid)` form: length 36, hyphens at indices 8, 13, 18, 23,
lowercase hex everywhere else. -/
def is_uuid_string (s : String) : Bool :=
  s.length == 36 &&
    s.data.enum.all fun p =>
      if p.1 == 8 || p.1 == 13 || p.1 == 18 || p.1 == 23 then p.2 == '-'
      else isLowerHexDigit p.2

/-- Modelled from the spec: `uuid.UUID(s)` — the parsed UUID (kept in its
canonical text form) or a `ValueError`. -/
def parse_uuid (s : String) : Option String :=
  if is_uuid_string s then some s else none

/-- `User.verify_token`: decode against `JWT_SECRET`; a `JWTError` from the
decoder or a `ValueError` from the UUID parse is caught and yields `None`,
as does a missing or falsy (empty) `sub` claim. -/
def verify_token (token : Jwt) (now : Int) : Option String :=
  match jwt_decode token settings.JWT_SECRET now with
  | .error _ => none
  | .ok payload =>
    match payload.sub with
    | none => none
    | some user_id => if user_id = "" then none else parse_uuid user_id

end User

namespace User

/-- The `db.query(User).filter((username == x) | (email == x)).first()` lookup. -/
def find_by_username_or_email (db : List UserRec) (username : String) : Option UserRec :=
  db.find? fun u => u.username == username || u.email == username

/-- The sanitized `UserRecord.model_validate(user)` snapshot. -/
def user_record_view (u : UserRec) : UserRecordView :=
  ⟨u.id, u.username, u.email, u.first_name, u.last_name, u.is_active, u.is_verified⟩

/-- `User.authenticate`: look the user up by username or email; missing user
and password mismatch both return `None` with the session untouched; on
success stamp `last_login`, commit, and return the `AuthToken` dict. -/
def authenticate (db : List UserRec) (username password : String) (now : Int) :
    Option AuthToken × List UserRec :=
  match find_by_username_or_email db username with
  | none => (none, db)
  | some user =>
    if verify_password user password = false then (none, db)
    else
      let stamped : UserRec :=
        ⟨user.id, user.username, user.email, user.password, user.first_name,
         user.last_name, user.is_active, user.is_verified, some now⟩
      (some ⟨create_access_token (some user.id) none now,
             create_refresh_token (some user.id) none now,
             "bearer",
             now + settings.ACCESS_TOKEN_TTL,
             user_record_view user⟩,
       db.map fun v => if v.id == user.id then stamped else v)

end User

/-- The `user_data` dict handed to `User.register` (the registration form). -/
structure RegInput where
  first_name : String
  last_name : String
  email : String
  username : String
  password : String
  confirm_password : String
deriving DecidableEq

namespace User

/-- Modelled from the spec: the pydantic `EmailStr` collaborator — a single
`@` with a nonempty local part and a dotted nonempty domain. -/
def is_email (s : String) : Bool :=
  let lp := s.data.takeWhile (fun c => c != '@')
  match s.data.drop lp.length with
  | c :: dp =>
    c == '@' && !lp.isEmpty && !dp.isEmpty && !(dp.contains '@') && dp.contains '.'
  | [] => false

/-- `UserCreate.model_validate`: the `PasswordMixin` before-validator, the
field constraints, then the confirm-password after-validator, first failure
wins (raised as `ValidationError`, re-raised by `register` as `ValueError`). -/
def validate_user_create (d : RegInput) : Except String Unit :=
  if d.password == "" then .error "Password is required"
  else if d.password.length < 8 then .error "Password must contain at least 8 characters"
  else if !(d.password.data.any Char.isUpper) then
    .error "Password must contain at least one uppercase letter"
  else if !(d.password.data.any Char.isLower) then
    .error "Password must contain at least one lowercase letter"
  else if !(d.password.data.any Char.isDigit) then
    .error "Password must contain at least one digit"
  else if d.first_name.length < 1 || 50 < d.first_name.length then
    .error "first_name must have between 1 and 50 characters"
  else if d.last_name.length < 1 || 50 < d.last_name.length then
    .error "last_name must have between 1 and 50 characters"
  else if !(is_email d.email) then .error "value is not a valid email address"
  else if d.username.length < 1 || 50 < d.username.length then
    .error "username must have between 1 and 50 characters"
  else if 128 < d.password.length then
    .error "password must have at most 128 characters"
  else if d.confirm_password.length < 1 || 128 < d.confirm_password.length then
    .error "confirm_password must have between 1 and 128 characters"
  else if d.password != d.confirm_password then .error "Password inputs do not match"
  else .ok ()

/-- `User.register`: the under-6-characters password check, the optimistic
duplicate pre-check over email OR username, schema validation, then the
insert (`new_id` stands for the `uuid4` default assigned at flush). -/
def register (db : List UserRec) (user_data : RegInput) (new_id : String) :
    Except String (UserRec × List UserRec) :=
  if user_data.password.length < 6 then
    .error "Password must contain at least six characters"
  else
    match db.find? (fun u =>
        u.email == user_data.email || u.username == user_data.username) with
    | some _ => .error "Username or email already exists"
    | none =>
      match validate_user_create user_data with
      | .error e => .error e
      | .ok _ =>
        let new_user : UserRec :=
          ⟨new_id, user_data.username, user_data.email, hash_password user_data.password,
           user_data.first_name, user_data.last_name, true, false, none⟩
        .ok (new_user, db ++ [new_user])

end User

/-- C3: a token minted by `create_access_token` with a subject id round-trips
through `verify_token` while unexpired; after expiry, or with any signature
other than the genuine one over its claims, `verify_token` returns `None`. -/
theorem token_roundtrip (u : String) (hu : User.is_uuid_string u = true)
    (mint_now now : Int) (expires_delta : Option Int) :
    (now ≤ (User.create_access_token (some u) expires_delta mint_now).payload.exp →
      User.verify_token (User.create_access_token (some u) expires_delta mint_now) now =
        some u) ∧
    ((User.create_access_token (some u) expires_delta mint_now).payload.exp < now →
      User.verify_token (User.create_access_token (some u) expires_delta mint_now) now =
        none) ∧
    (∀ s, s ≠ (User.create_access_token (some u) expires_delta mint_now).sig →
      User.verify_token
        ⟨(User.create_access_token (some u) expires_delta mint_now).payload, s⟩ now = none) := by
  have hne : u ≠ "" := by
    intro he
    rw [he] at hu
    exact absurd hu (by decide)
  refine ⟨fun h => ?_, fun h => ?_, fun s hs => ?_⟩
  · simp only [User.create_access_token, jwt_encode] at h ⊢
    simp only [User.verify_token, jwt_decode, ne_eq, not_true_eq_false, if_false,
      not_lt.mpr h, if_neg]
    simp only [User.parse_uuid, if_pos hu, if_neg hne]
  · simp only [User.create_access_token, jwt_encode] at h ⊢
    simp only [User.verify_token, jwt_decode, ne_eq, not_true_eq_false, if_false, if_pos h]
  · simp only [User.create_access_token, jwt_encode] at hs ⊢
    simp only [User.verify_token, jwt_decode, ne_eq, if_pos hs]

theorem token_roundtrip_witness :
    User.verify_token
      (User.create_access_token (some "123e4567-e89b-12d3-a456-426614174000") none 0) 10 =
      some "123e4567-e89b-12d3-a456-426614174000" ∧
    User.verify_token
      (User.create_access_token (some "123e4567-e89b-12d3-a456-426614174000") none 0) 31 =
      none ∧
    User.verify_token
      ⟨(User.create_access_token (some "123e4567-e89b-12d3-a456-426614174000") none 0).payload,
       ("tampered",
        (User.create_access_token
          (some "123e4567-e89b-12d3-a456-426614174000") none 0).payload)⟩ 10 = none :=
  ⟨(token_roundtrip "123e4567-e89b-12d3-a456-426614174000" (by decide) 0 10 none).1
      (by decide),
   (token_roundtrip "123e4567-e89b-12d3-a456-426614174000" (by decide) 0 31 none).2.1
      (by decide),
   (token_roundtrip "123e4567-e89b-12d3-a456-426614174000" (by decide) 0 10 none).2.2
      ("tampered",
       (User.create_access_token
         (some "123e4567-e89b-12d3-a456-426614174000") none 0).payload)
      (by decide)⟩

theorem jwt_decode_ok_payload (t : Jwt) (secret : String) (now : Int) (p : TokenPayload)
    (h : jwt_decode t secret now = .ok p) : p = t.payload := by
  unfold jwt_decode at h
  by_cases h1 : t.sig ≠ (secret, t.payload)
  · rw [if_pos h1] at h
    exact Except.noConfusion h
  · rw [if_neg h1] at h
    by_cases h2 : t.payload.exp < now
    · rw [if_pos h2] at h
      exact Except.noConfusion h
    · rw [if_neg h2] at h
      injection h with h'
      exact h'.symm

/-- C4: `verify_token` never escapes with an exception: every decoder failure
and every missing subject claim yields `None`, and a subject id comes back
only when decoding against the access secret succeeded and the claim set
carries that subject. -/
theorem verify_token_total (t : Jwt) (now : Int) :
    (∀ e, jwt_decode t settings.JWT_SECRET now = .error e →
      User.verify_token t now = none) ∧
    (t.payload.sub = none → User.verify_token t now = none) ∧
    (∀ uid, User.verify_token t now = some uid →
      jwt_decode t settings.JWT_SECRET now = .ok t.payload ∧
      t.payload.sub = some uid) := by
  refine ⟨fun e he => ?_, fun hs => ?_, fun uid hv => ?_⟩
  · simp only [User.verify_token, he]
  · simp only [User.verify_token]
    cases h : jwt_decode t settings.JWT_SECRET now with
    | error e => rfl
    | ok p =>
      have hp := jwt_decode_ok_payload t settings.JWT_SECRET now p h
      subst hp
      simp only [hs]
  · simp only [User.verify_token] at hv
    cases h : jwt_decode t settings.JWT_SECRET now with
    | error e =>
      simp only [h] at hv
      exact Option.noConfusion hv
    | ok p =>
      simp only [h] at hv
      have hp := jwt_decode_ok_payload t settings.JWT_SECRET now p h
      subst hp
      cases hsub : t.payload.sub with
      | none =>
        simp only [hsub] at hv
        exact Option.noConfusion hv
      | some s =>
        simp only [hsub] at hv
        by_cases hse : s = ""
        · rw [if_pos hse] at hv
          exact Option.noConfusion hv
        · rw [if_neg hse] at hv
          simp only [User.parse_uuid] at hv
          by_cases hiu : User.is_uuid_string s = true
          · rw [if_pos hiu] at hv
            injection hv with h2
            subst h2
            exact ⟨rfl, rfl⟩
          · rw [if_neg hiu] at hv
            exact Option.noConfusion hv

theorem verify_token_total_witness :
    User.verify_token
      ⟨⟨some "123e4567-e89b-12d3-a456-426614174000", 100⟩,
       ("tampered", ⟨some "123e4567-e89b-12d3-a456-426614174000", 100⟩)⟩ 0 = none ∧
    User.verify_token ⟨⟨none, 100⟩, (settings.JWT_SECRET, ⟨none, 100⟩)⟩ 0 = none ∧
    (jwt_decode (jwt_encode ⟨some "123e4567-e89b-12d3-a456-426614174000", 100⟩
        settings.JWT_SECRET) settings.JWT_SECRET 0 =
      .ok (jwt_encode ⟨some "123e4567-e89b-12d3-a456-426614174000", 100⟩
        settings.JWT_SECRET).payload ∧
      (jwt_encode ⟨some "123e4567-e89b-12d3-a456-426614174000", 100⟩
        settings.JWT_SECRET).payload.sub = some "123e4567-e89b-12d3-a456-426614174000") :=
  ⟨(verify_token_total
      ⟨⟨some "123e4567-e89b-12d3-a456-426614174000", 100⟩,
       ("tampered", ⟨some "123e4567-e89b-12d3-a456-426614174000", 100⟩)⟩ 0).1
      "JWTError: signature verification failed" rfl,
   (verify_token_total ⟨⟨none, 100⟩, (settings.JWT_SECRET, ⟨none, 100⟩)⟩ 0).2.1 rfl,
   (verify_token_total (jwt_encode ⟨some "123e4567-e89b-12d3-a456-426614174000", 100⟩
       settings.JWT_SECRET) 0).2.2 "123e4567-e89b-12d3-a456-426614174000" (by decide)⟩

/-- C5: a login naming no stored user and a login naming a stored user with a
wrong password produce the identical observable result from `authenticate` —
the same `None` — so the caller cannot tell the two failures apart. -/
theorem authenticate_indistinguishable
    (db1 : List UserRec) (u1 p1 : String) (now1 : Int)
    (db2 : List UserRec) (u2 p2 : String) (now2 : Int)
    (h1 : User.find_by_username_or_email db1 u1 = none)
    (h2 : ∃ usr, User.find_by_username_or_email db2 u2 = some usr ∧
      User.verify_password usr p2 = false) :
    (User.authenticate db1 u1 p1 now1).1 = (User.authenticate db2 u2 p2 now2).1 ∧
    (User.authenticate db1 u1 p1 now1).1 = none := by
  obtain ⟨usr, hf, hv⟩ := h2
  have e1 : (User.authenticate db1 u1 p1 now1).1 = none := by
    simp only [User.authenticate, h1]
  have e2 : (User.authenticate db2 u2 p2 now2).1 = none := by
    simp only [User.authenticate, hf, hv, if_pos]
  exact ⟨e1.trans e2.symm, e1⟩

theorem authenticate_indistinguishable_witness :
    User.find_by_username_or_email [] "alice" = none ∧
    (∃ usr, User.find_by_username_or_email
        [⟨"11111111-2222-3333-4444-555555555555", "bob", "bob@example.com",
          User.hash_password "Secret123", "Bob", "Builder", true, false, none⟩] "bob" =
        some usr ∧ User.verify_password usr "wrong-password" = false) ∧
    (User.authenticate [] "alice" "anything" 0).1 =
      (User.authenticate
        [⟨"11111111-2222-3333-4444-555555555555", "bob", "bob@example.com",
          User.hash_password "Secret123", "Bob", "Builder", true, false, none⟩]
        "bob" "wrong-password" 5).1 ∧
    (User.authenticate [] "alice" "anything" 0).1 = none :=
  ⟨rfl,
   ⟨⟨"11111111-2222-3333-4444-555555555555", "bob", "bob@example.com",
     User.hash_password "Secret123", "Bob", "Builder", true, false, none⟩, rfl, by decide⟩,
   (authenticate_indistinguishable [] "alice" "anything" 0
      [⟨"11111111-2222-3333-4444-555555555555", "bob", "bob@example.com",
        User.hash_password "Secret123", "Bob", "Builder", true, false, none⟩]
      "bob" "wrong-password" 5 rfl
      ⟨⟨"11111111-2222-3333-4444-555555555555", "bob", "bob@example.com",
        User.hash_password "Secret123", "Bob", "Builder", true, false, none⟩, rfl, by decide⟩).1,
   (authenticate_indistinguishable [] "alice" "anything" 0
      [⟨"11111111-2222-3333-4444-555555555555", "bob", "bob@example.com",
        User.hash_password "Secret123", "Bob", "Builder", true, false, none⟩]
      "bob" "wrong-password" 5 rfl
      ⟨⟨"11111111-2222-3333-4444-555555555555", "bob", "bob@example.com",
        User.hash_password "Secret123", "Bob", "Builder", true, false, none⟩, rfl, by decide⟩).2⟩

theorem hash_password_ne (p : String) : User.hash_password p ≠ p := by
  intro h
  have hl := congrArg String.length h
  rw [User.hash_password, String.length_append] at hl
  have h7 : ("$2b$12$" : String).length = 7 := rfl
  rw [h7] at hl
  omega

/-- C6: `register` fails on every password under 6 characters; it fails on
every collision of username OR email with a stored user, and (when the
password pre-check passes) with the single generic already-exists message that
does not name the colliding field; every successful registration stores the
hashed password — never the plaintext — with `is_active` true and
`is_verified` false. -/
theorem register_validation (db : List UserRec) (d : RegInput) (new_id : String) :
    (d.password.length < 6 →
      User.register db d new_id = .error "Password must contain at least six characters") ∧
    ((∃ u ∈ db, u.email = d.email ∨ u.username = d.username) →
      (User.register db d new_id).isOk = false) ∧
    (6 ≤ d.password.length →
      (∃ u ∈ db, u.email = d.email ∨ u.username = d.username) →
      User.register db d new_id = .error "Username or email already exists") ∧
    (∀ u db', User.register db d new_id = .ok (u, db') →
      u.password = User.hash_password d.password ∧
      u.password ≠ d.password ∧
      u.is_active = true ∧ u.is_verified = false ∧ db' = db ++ [u]) := by
  have hdup : (∃ u ∈ db, u.email = d.email ∨ u.username = d.username) →
      ∃ v, db.find? (fun u => u.email == d.email || u.username == d.username) = some v := by
    rintro ⟨u, hu, hor⟩
    have hs : (db.find? (fun u => u.email == d.email || u.username == d.username)).isSome :=
      List.find?_isSome.mpr ⟨u, hu, by
        cases hor with
        | inl h => simp [h]
        | inr h => simp [h]⟩
    exact Option.isSome_iff_exists.mp hs
  refine ⟨fun hlt => ?_, fun hex => ?_, fun h6 hex => ?_, fun u db' hok => ?_⟩
  · simp only [User.register, if_pos hlt]
  · by_cases hlt : d.password.length < 6
    · simp only [User.register, if_pos hlt]
      rfl
    · obtain ⟨v, hv⟩ := hdup hex
      simp only [User.register, if_neg hlt, hv]
      rfl
  · obtain ⟨v, hv⟩ := hdup hex
    simp only [User.register, if_neg (not_lt.mpr h6), hv]
  · unfold User.register at hok
    by_cases hlt : d.password.length < 6
    · rw [if_pos hlt] at hok
      exact Except.noConfusion hok
    · rw [if_neg hlt] at hok
      cases hf : db.find? (fun u => u.email == d.email || u.username == d.username) with
      | some v =>
        simp only [hf] at hok
        exact Except.noConfusion hok
      | none =>
        simp only [hf] at hok
        cases hval : User.validate_user_create d with
        | error e =>
          simp only [hval] at hok
          exact Except.noConfusion hok
        | ok w =>
          simp only [hval] at hok
          injection hok with hpair
          have hu := congrArg Prod.fst hpair
          have hdb := congrArg Prod.snd hpair
          simp only at hu hdb
          subst hu
          exact ⟨rfl, hash_password_ne d.password, rfl, rfl, hdb.symm⟩

theorem register_validation_witness :
    User.register [] ⟨"Jane", "Doe", "jane.doe@example.com", "janedoe", "abc", "abc"⟩
      "33333333-3333-3333-3333-333333333333" =
      .error "Password must contain at least six characters" ∧
    (User.register
      [⟨"22222222-2222-2222-2222-222222222222", "bobby", "jane.doe@example.com",
        User.hash_password "Hunter22X", "Bob", "Builder", true, false, none⟩]
      ⟨"Jane", "Doe", "jane.doe@example.com", "janedoe", "SecurePass123", "SecurePass123"⟩
      "33333333-3333-3333-3333-333333333333").isOk = false ∧
    User.register
      [⟨"22222222-2222-2222-2222-222222222222", "bobby", "jane.doe@example.com",
        User.hash_password "Hunter22X", "Bob", "Builder", true, false, none⟩]
      ⟨"Jane", "Doe", "jane.doe@example.com", "janedoe", "SecurePass123", "SecurePass123"⟩
      "33333333-3333-3333-3333-333333333333" =
      .error "Username or email already exists" ∧
    ((⟨"33333333-3333-3333-3333-333333333333", "janedoe", "jane.doe@example.com",
        User.hash_password "SecurePass123", "Jane", "Doe", true, false, none⟩ :
          UserRec).password = User.hash_password "SecurePass123" ∧
     (⟨"33333333-3333-3333-3333-333333333333", "janedoe", "jane.doe@example.com",
        User.hash_password "SecurePass123", "Jane", "Doe", true, false, none⟩ :
          UserRec).password ≠ "SecurePass123" ∧
     (⟨"33333333-3333-3333-3333-333333333333", "janedoe", "jane.doe@example.com",
        User.hash_password "SecurePass123", "Jane", "Doe", true, false, none⟩ :
          UserRec).is_active = true ∧
     (⟨"33333333-3333-3333-3333-333333333333", "janedoe", "jane.doe@example.com",
        User.hash_password "SecurePass123", "Jane", "Doe", true, false, none⟩ :
          UserRec).is_verified = false ∧
     ([] ++ [(⟨"33333333-3333-3333-3333-333333333333", "janedoe", "jane.doe@example.com",
        User.hash_password "SecurePass123", "Jane", "Doe", true, false, none⟩ : UserRec)] :
          List UserRec) =
       [] ++ [⟨"33333333-3333-3333-3333-333333333333", "janedoe", "jane.doe@example.com",
        User.hash_password "SecurePass123", "Jane", "Doe", true, false, none⟩]) :=
  ⟨(register_validation []
      ⟨"Jane", "Doe", "jane.doe@example.com", "janedoe", "abc", "abc"⟩
      "33333333-3333-3333-3333-333333333333").1 (by decide),
   (register_validation
      [⟨"22222222-2222-2222-2222-222222222222", "bobby", "jane.doe@example.com",
        User.hash_password "Hunter22X", "Bob", "Builder", true, false, none⟩]
      ⟨"Jane", "Doe", "jane.doe@example.com", "janedoe", "SecurePass123", "SecurePass123"⟩
      "33333333-3333-3333-3333-333333333333").2.1
      ⟨⟨"22222222-2222-2222-2222-222222222222", "bobby", "jane.doe@example.com",
        User.hash_password "Hunter22X", "Bob", "Builder", true, false, none⟩,
       by decide, Or.inl rfl⟩,
   (register_validation
      [⟨"22222222-2222-2222-2222-222222222222", "bobby", "jane.doe@example.com",
        User.hash_password "Hunter22X", "Bob", "Builder", true, false, none⟩]
      ⟨"Jane", "Doe", "jane.doe@example.com", "janedoe", "SecurePass123", "SecurePass123"⟩
      "33333333-3333-3333-3333-333333333333").2.2.1 (by decide)
      ⟨⟨"22222222-2222-2222-2222-222222222222", "bobby", "jane.doe@example.com",
        User.hash_password "Hunter22X", "Bob", "Builder", true, false, none⟩,
       by decide, Or.inl rfl⟩,
   (register_validation []
      ⟨"Jane", "Doe", "jane.doe@example.com", "janedoe", "SecurePass123", "SecurePass123"⟩
      "33333333-3333-3333-3333-333333333333").2.2.2
      ⟨"33333333-3333-3333-3333-333333333333", "janedoe", "jane.doe@example.com",
        User.hash_password "SecurePass123", "Jane", "Doe", true, false, none⟩
      ([] ++ [⟨"33333333-3333-3333-3333-333333333333", "janedoe", "jane.doe@example.com",
        User.hash_password "SecurePass123", "Jane", "Doe", true, false, none⟩]) (by rfl)⟩
